import Mathlib

/-!
# Verification of the WebWaka fintech payment framework

Shallow embedding of the transaction-handling endpoints of the
`MyHandyLife/webwaka-fintech` repository, together with proofs and
refutations of the specification's claims about them.

Conventions of the embedding:

* SQLAlchemy `Numeric(m, n)` (fixed-point decimal) columns are embedded as
  `ℚ`; a Python `float(...)` conversion is recorded by tagging the value
  with the `JsonNumber.float` constructor (the numeric value is kept exact,
  only the representation choice is tracked, which is all the claims need).
* `datetime` values are embedded as `Int` (seconds); `datetime.utcnow()`
  is an explicit `now` parameter, and `uuid.uuid4().hex[:k]` suffixes are
  explicit parameters, since the embedding is deterministic.
* A nullable column is `Option _`; a key present (or absent) in a request
  JSON body is `Option _` on the request structure.
* Statuses are plain `String`s, exactly as in the source, which stores and
  compares status strings without an enumeration or validation.
-/

namespace WebwakaFintech

/-- A JSON number in an API response, tagged with the representation the
Python code chose for it: `decimal` for `decimal.Decimal` / `Numeric`
values, `float` for values produced by a `float(...)` conversion or float
arithmetic.  The numeric value itself is carried exactly as a rational. -/
inductive JsonNumber where
  | decimal (val : ℚ)
  | float (val : ℚ)
deriving DecidableEq, Repr

/-- Whether a serialized number is in floating-point representation. -/
def JsonNumber.isFloat : JsonNumber → Bool
  | .decimal _ => false
  | .float _ => true

/-- `overrideOpt new old`: the value of an attribute after
`if field in data: setattr(obj, field, data[field])` — the request value
when the key is present, the previous value otherwise. -/
def overrideOpt {α : Type} (new : Option α) (old : Option α) : Option α :=
  match new with
  | some v => some v
  | none => old

end WebwakaFintech

namespace WebwakaFintech.Tier1

/-- The `Tier1Transaction` model
(`src/src/models/tier1_critical_platforms.py`, class `Tier1Transaction`).
Every column of the model is embedded; `id` is the autoincrement primary
key, assigned at insert time. -/
structure Tier1Transaction where
  id : Nat
  transaction_id : String
  platform : String
  platform_integration_id : String
  external_transaction_id : Option String
  reference : String
  description : Option String
  amount : ℚ
  currency : String
  payment_method : String
  payment_channel : Option String
  customer_id : Option String
  customer_email : Option String
  customer_phone : Option String
  customer_name : Option String
  platform_request_data : Option String
  platform_response_data : Option String
  platform_callback_data : Option String
  status : String
  platform_status : Option String
  failure_reason : Option String
  initiated_at : Option Int
  processed_at : Option Int
  completed_at : Option Int
  response_time : Option Int
  platform_fee : ℚ
  gateway_fee : ℚ
  total_fees : ℚ
  net_amount : Option ℚ
  country_code : String
  mobile_network : Option String
  bank_code : Option String
  ip_address : Option String
  user_agent : Option String
  created_at : Int
  updated_at : Int
deriving DecidableEq, Repr

/-- The JSON body accepted by `PUT /transactions/<transaction_id>/status`
(`update_transaction_status` in `src/src/routes/tier1_critical_platforms.py`).
A field is `some _` when the corresponding key is present in the request.
`platform_response_data` / `platform_callback_data` carry the string the
route produces by `json.dumps`. -/
structure StatusUpdateData where
  status : Option String
  platform_status : Option String
  external_transaction_id : Option String
  failure_reason : Option String
  platform_fee : Option ℚ
  gateway_fee : Option ℚ
  total_fees : Option ℚ
  net_amount : Option ℚ
  platform_response_data : Option String
  platform_callback_data : Option String
deriving DecidableEq, Repr

open WebwakaFintech

/-- The `if 'status' in data:` block of `update_transaction_status`
(`src/src/routes/tier1_critical_platforms.py` lines 605–617): the proposed
status is assigned unconditionally; `processed_at` is stamped on an update
to `Processing` when still unset; `completed_at` is stamped on an update to
`Success`/`Failed`/`Cancelled` when still unset, and in that case
`response_time` is computed from `initiated_at` when available
(`(completed_at - initiated_at).total_seconds() * 1000`, embedded over
integer seconds as `(now - i) * 1000`). -/
def applyStatusField (t : Tier1Transaction) (d : StatusUpdateData)
    (now : Int) : Tier1Transaction :=
  match d.status with
  | none => t
  | some s =>
    if s = "Processing" ∧ t.processed_at = none then
      { t with status := s, processed_at := some now }
    else if (s = "Success" ∨ s = "Failed" ∨ s = "Cancelled") ∧
        t.completed_at = none then
      match t.initiated_at with
      | some i =>
        { t with status := s, completed_at := some now,
                 response_time := some ((now - i) * 1000) }
      | none => { t with status := s, completed_at := some now }
    else { t with status := s }

/-- The `updatable_fields` loop of `update_transaction_status`
(lines 620–627): each of the listed fields is overwritten exactly when its
key is present in the request body. -/
def applyUpdatableFields (t : Tier1Transaction) (d : StatusUpdateData) :
    Tier1Transaction :=
  { t with
    platform_status := overrideOpt d.platform_status t.platform_status,
    external_transaction_id :=
      overrideOpt d.external_transaction_id t.external_transaction_id,
    failure_reason := overrideOpt d.failure_reason t.failure_reason,
    platform_fee := d.platform_fee.getD t.platform_fee,
    gateway_fee := d.gateway_fee.getD t.gateway_fee,
    total_fees := d.total_fees.getD t.total_fees,
    net_amount := overrideOpt d.net_amount t.net_amount }

/-- The whole body of `update_transaction_status` on one transaction
(`src/src/routes/tier1_critical_platforms.py` lines 594–646): status and
timing block, then the updatable-fields loop, then the response/callback
data blobs, then `updated_at = datetime.utcnow()`. -/
def update_transaction_status (t : Tier1Transaction) (d : StatusUpdateData)
    (now : Int) : Tier1Transaction :=
  let t2 := applyUpdatableFields (applyStatusField t d now) d
  { t2 with
    platform_response_data :=
      overrideOpt d.platform_response_data t2.platform_response_data,
    platform_callback_data :=
      overrideOpt d.platform_callback_data t2.platform_callback_data,
    updated_at := now }

/-- The route looks the transaction up with
`Tier1Transaction.query.filter_by(transaction_id=...).first()` and mutates
that row in place: the first row matching `transaction_id` is replaced by
its update, every other row is untouched; a miss changes nothing (404). -/
def update_transaction_status_route (tid : String) (d : StatusUpdateData)
    (now : Int) : List Tier1Transaction → List Tier1Transaction
  | [] => []
  | t :: ts =>
    if t.transaction_id = tid then update_transaction_status t d now :: ts
    else t :: update_transaction_status_route tid d now ts

/- Field-level reductions: the steps after `applyStatusField` never touch
the status or the timing columns. -/

theorem update_status_eq (t : Tier1Transaction) (d : StatusUpdateData)
    (now : Int) :
    (update_transaction_status t d now).status =
      (applyStatusField t d now).status := rfl

theorem update_processed_eq (t : Tier1Transaction) (d : StatusUpdateData)
    (now : Int) :
    (update_transaction_status t d now).processed_at =
      (applyStatusField t d now).processed_at := rfl

theorem update_completed_eq (t : Tier1Transaction) (d : StatusUpdateData)
    (now : Int) :
    (update_transaction_status t d now).completed_at =
      (applyStatusField t d now).completed_at := rfl

theorem update_rt_eq (t : Tier1Transaction) (d : StatusUpdateData)
    (now : Int) :
    (update_transaction_status t d now).response_time =
      (applyStatusField t d now).response_time := rfl

theorem update_initiated_eq (t : Tier1Transaction) (d : StatusUpdateData)
    (now : Int) :
    (update_transaction_status t d now).initiated_at =
      (applyStatusField t d now).initiated_at := rfl

/-- The status written by `applyStatusField`. -/
theorem asf_status (t : Tier1Transaction) (d : StatusUpdateData)
    (now : Int) :
    (applyStatusField t d now).status = d.status.getD t.status := by
  unfold applyStatusField
  cases d.status with
  | none => rfl
  | some s =>
    dsimp only
    by_cases h1 : s = "Processing" ∧ t.processed_at = none
    · rw [if_pos h1]; rfl
    · rw [if_neg h1]
      by_cases h2 : (s = "Success" ∨ s = "Failed" ∨ s = "Cancelled") ∧
          t.completed_at = none
      · rw [if_pos h2]; cases t.initiated_at <;> rfl
      · rw [if_neg h2]; rfl

/-- `processed_at` after `applyStatusField`: unchanged, unless the update
is the first `Processing` update, in which case it is stamped `now`. -/
theorem asf_processed (t : Tier1Transaction) (d : StatusUpdateData)
    (now : Int) :
    (applyStatusField t d now).processed_at = t.processed_at ∨
      (d.status = some "Processing" ∧ t.processed_at = none ∧
        (applyStatusField t d now).processed_at = some now) := by
  unfold applyStatusField
  cases hs : d.status with
  | none => exact Or.inl rfl
  | some s =>
    dsimp only
    by_cases h1 : s = "Processing" ∧ t.processed_at = none
    · rw [if_pos h1]
      exact Or.inr ⟨by rw [h1.1], h1.2, rfl⟩
    · rw [if_neg h1]
      by_cases h2 : (s = "Success" ∨ s = "Failed" ∨ s = "Cancelled") ∧
          t.completed_at = none
      · rw [if_pos h2]; cases t.initiated_at <;> exact Or.inl rfl
      · rw [if_neg h2]; exact Or.inl rfl

/-- `completed_at` and `response_time` after `applyStatusField`: both are
unchanged, unless the update is the first completing update
(`Success`/`Failed`/`Cancelled` with `completed_at` still unset), in which
case `completed_at` is stamped `now` and `response_time` is recomputed
exactly when `initiated_at` is set. -/
theorem asf_completed (t : Tier1Transaction) (d : StatusUpdateData)
    (now : Int) :
    ((applyStatusField t d now).completed_at = t.completed_at ∧
      (applyStatusField t d now).response_time = t.response_time) ∨
      ((d.status = some "Success" ∨ d.status = some "Failed" ∨
          d.status = some "Cancelled") ∧ t.completed_at = none ∧
        (applyStatusField t d now).completed_at = some now ∧
        ((t.initiated_at = none ∧
            (applyStatusField t d now).response_time = t.response_time) ∨
          (∃ i, t.initiated_at = some i ∧
            (applyStatusField t d now).response_time =
              some ((now - i) * 1000)))) := by
  unfold applyStatusField
  cases hs : d.status with
  | none => exact Or.inl ⟨rfl, rfl⟩
  | some s =>
    dsimp only
    by_cases h1 : s = "Processing" ∧ t.processed_at = none
    · rw [if_pos h1]; exact Or.inl ⟨rfl, rfl⟩
    · rw [if_neg h1]
      by_cases h2 : (s = "Success" ∨ s = "Failed" ∨ s = "Cancelled") ∧
          t.completed_at = none
      · rw [if_pos h2]
        refine Or.inr ⟨?_, h2.2, ?_, ?_⟩
        · rcases h2.1 with h | h | h
          · exact Or.inl (by rw [h])
          · exact Or.inr (Or.inl (by rw [h]))
          · exact Or.inr (Or.inr (by rw [h]))
        · cases t.initiated_at <;> rfl
        · cases hi : t.initiated_at with
          | none => exact Or.inl ⟨rfl, rfl⟩
          | some i => exact Or.inr ⟨i, rfl, rfl⟩
      · rw [if_neg h2]; exact Or.inl ⟨rfl, rfl⟩

/-- After any update whose body proposes `Processing`, `processed_at` is
set. -/
theorem asf_processing_sets (t : Tier1Transaction) (d : StatusUpdateData)
    (now : Int) (h : d.status = some "Processing") :
    (applyStatusField t d now).processed_at ≠ none := by
  unfold applyStatusField
  rw [h]
  dsimp only
  by_cases h1 : "Processing" = "Processing" ∧ t.processed_at = none
  · rw [if_pos h1]; simp
  · rw [if_neg h1,
      if_neg (show ¬(("Processing" = "Success" ∨ "Processing" = "Failed" ∨
        "Processing" = "Cancelled") ∧ t.completed_at = none) by
        intro hc; rcases hc.1 with hx | hx | hx <;> exact absurd hx (by decide))]
    intro hc
    exact h1 ⟨rfl, hc⟩

/-- After any update whose body proposes `Success`, `Failed` or
`Cancelled`, `completed_at` is set. -/
theorem asf_completing_sets (t : Tier1Transaction) (d : StatusUpdateData)
    (now : Int)
    (h : d.status = some "Success" ∨ d.status = some "Failed" ∨
      d.status = some "Cancelled") :
    (applyStatusField t d now).completed_at ≠ none := by
  cases hc : t.completed_at with
  | some x =>
    rcases asf_completed t d now with ⟨h1, _⟩ | ⟨_, _, h1, _⟩ <;>
      rw [h1] <;> simp [hc]
  | none =>
    unfold applyStatusField
    rcases h with h | h | h <;> rw [h] <;> dsimp only <;>
      [rw [if_neg (show ¬("Success" = "Processing" ∧ t.processed_at = none) by
          intro hx; exact absurd hx.1 (by decide)),
        if_pos ⟨Or.inl rfl, hc⟩];
       rw [if_neg (show ¬("Failed" = "Processing" ∧ t.processed_at = none) by
          intro hx; exact absurd hx.1 (by decide)),
        if_pos ⟨Or.inr (Or.inl rfl), hc⟩];
       rw [if_neg (show ¬("Cancelled" = "Processing" ∧ t.processed_at = none) by
          intro hx; exact absurd hx.1 (by decide)),
        if_pos ⟨Or.inr (Or.inr rfl), hc⟩]] <;>
      cases t.initiated_at <;> simp

/-- A concrete `Tier1Transaction` row, as created by
`POST /transactions` of the tier-1 blueprint. -/
def baseTier1 : Tier1Transaction :=
  { id := 1, transaction_id := "tier1_0123456789abcdef", platform := "mpesa",
    platform_integration_id := "mpesa_1", external_transaction_id := none,
    reference := "ref_abc", description := none, amount := 500,
    currency := "KES", payment_method := "Mobile Money",
    payment_channel := none, customer_id := none, customer_email := none,
    customer_phone := none, customer_name := none,
    platform_request_data := some "\x7b\x7d", platform_response_data := none,
    platform_callback_data := none, status := "Pending",
    platform_status := none, failure_reason := none, initiated_at := some 10,
    processed_at := none, completed_at := none, response_time := none,
    platform_fee := 0, gateway_fee := 0, total_fees := 0, net_amount := none,
    country_code := "KEN", mobile_network := none, bank_code := none,
    ip_address := none, user_agent := none, created_at := 10,
    updated_at := 10 }

/-- A status-update request body with no keys present. -/
def emptyUpdate : StatusUpdateData :=
  { status := none, platform_status := none,
    external_transaction_id := none, failure_reason := none,
    platform_fee := none, gateway_fee := none, total_fees := none,
    net_amount := none, platform_response_data := none,
    platform_callback_data := none }

/-- A status-update request body proposing the `Pending` status. -/
def proposePending : StatusUpdateData :=
  { emptyUpdate with status := some "Pending" }

/-- C2 counterexample: a transaction in the terminal `Success` state, sent
through `update_transaction_status` with a proposed `Pending` status, ends
up stored as `Pending` — the terminal state is overwritten, not kept. -/
theorem c2_terminal_overwritten_cex :
    ({ baseTier1 with status := "Success", completed_at := some 20 }
        : Tier1Transaction).status = "Success" ∧
    (update_transaction_status
        { baseTier1 with status := "Success", completed_at := some 20 }
        proposePending 30).status = "Pending" := by
  refine ⟨rfl, ?_⟩
  rw [update_status_eq, asf_status]
  rfl

/-- C2 (amended): `update_transaction_status` applies whatever status the
request proposes, unconditionally — there is no terminal-state guard, no
rejection and no logging of illegal transitions; the stored status simply
becomes the proposed one. -/
theorem c2_status_applied_unconditionally (t : Tier1Transaction)
    (d : StatusUpdateData) (now : Int) (s : String)
    (h : d.status = some s) :
    (update_transaction_status t d now).status = s := by
  rw [update_status_eq, asf_status, h]
  rfl

/-- Witness for `c2_status_applied_unconditionally` at a concrete input. -/
theorem c2_status_applied_unconditionally_witness :
    (update_transaction_status
        { baseTier1 with status := "Success", completed_at := some 20 }
        proposePending 30).status = "Pending" :=
  c2_status_applied_unconditionally
    { baseTier1 with status := "Success", completed_at := some 20 }
    proposePending 30 "Pending" rfl

/-- C3: delivering the same status-update request (the same callback
payload) a second time is a no-op on the transaction's state: the stored
status, `processed_at`, `completed_at` and `response_time` after the
second application equal those after the first, whatever the two
processing times were.  (Only the `updated_at` audit column moves.) -/
theorem c3_redelivery_is_noop (t : Tier1Transaction) (d : StatusUpdateData)
    (n1 n2 : Int) :
    (update_transaction_status (update_transaction_status t d n1) d
        n2).status = (update_transaction_status t d n1).status ∧
    (update_transaction_status (update_transaction_status t d n1) d
        n2).processed_at = (update_transaction_status t d n1).processed_at ∧
    (update_transaction_status (update_transaction_status t d n1) d
        n2).completed_at = (update_transaction_status t d n1).completed_at ∧
    (update_transaction_status (update_transaction_status t d n1) d
        n2).response_time = (update_transaction_status t d n1).response_time
    := by
  refine ⟨?_, ?_, ?_, ?_⟩
  · rw [update_status_eq, asf_status, update_status_eq, asf_status]
    cases d.status with
    | none => rfl
    | some s => rfl
  · rw [update_processed_eq]
    rcases asf_processed (update_transaction_status t d n1) d n2 with
      h | ⟨hps, hnone, _⟩
    · exact h
    · rw [update_processed_eq] at hnone
      exact absurd hnone (asf_processing_sets t d n1 hps)
  · rw [update_completed_eq]
    rcases asf_completed (update_transaction_status t d n1) d n2 with
      ⟨h, _⟩ | ⟨hs, hnone, _, _⟩
    · exact h
    · rw [update_completed_eq] at hnone
      exact absurd hnone (asf_completing_sets t d n1 hs)
  · rw [update_rt_eq]
    rcases asf_completed (update_transaction_status t d n1) d n2 with
      ⟨_, h⟩ | ⟨hs, hnone, _, _⟩
    · exact h
    · rw [update_completed_eq] at hnone
      exact absurd hnone (asf_completing_sets t d n1 hs)

/-- C10: in `update_transaction_status`, the timing columns are
write-once: a set `processed_at` or `completed_at` is never overwritten;
`processed_at` changes only on the first update to `Processing` (to the
processing time); `completed_at` changes only on the first update to
`Success`/`Failed`/`Cancelled`; and `response_time` changes only at that
first completing update, computed from `initiated_at`. -/
theorem c10_timestamps_write_once (t : Tier1Transaction)
    (d : StatusUpdateData) (now : Int) :
    (t.processed_at ≠ none →
      (update_transaction_status t d now).processed_at = t.processed_at) ∧
    (t.completed_at ≠ none →
      (update_transaction_status t d now).completed_at = t.completed_at ∧
      (update_transaction_status t d now).response_time = t.response_time) ∧
    ((update_transaction_status t d now).processed_at ≠ t.processed_at →
      d.status = some "Processing" ∧ t.processed_at = none ∧
      (update_transaction_status t d now).processed_at = some now) ∧
    ((update_transaction_status t d now).completed_at ≠ t.completed_at →
      (d.status = some "Success" ∨ d.status = some "Failed" ∨
        d.status = some "Cancelled") ∧ t.completed_at = none ∧
      (update_transaction_status t d now).completed_at = some now) ∧
    ((update_transaction_status t d now).response_time ≠ t.response_time →
      t.completed_at = none ∧
      (update_transaction_status t d now).completed_at = some now ∧
      ∃ i, t.initiated_at = some i ∧
        (update_transaction_status t d now).response_time =
          some ((now - i) * 1000)) := by
  refine ⟨?_, ?_, ?_, ?_, ?_⟩
  · intro hne
    rw [update_processed_eq]
    rcases asf_processed t d now with h | ⟨_, hnone, _⟩
    · exact h
    · exact absurd hnone hne
  · intro hne
    rw [update_completed_eq, update_rt_eq]
    rcases asf_completed t d now with ⟨h1, h2⟩ | ⟨_, hnone, _, _⟩
    · exact ⟨h1, h2⟩
    · exact absurd hnone hne
  · intro hch
    rw [update_processed_eq] at hch ⊢
    rcases asf_processed t d now with h | ⟨hps, hnone, hset⟩
    · exact absurd h hch
    · exact ⟨hps, hnone, hset⟩
  · intro hch
    rw [update_completed_eq] at hch ⊢
    rcases asf_completed t d now with ⟨h, _⟩ | ⟨hs, hnone, hset, _⟩
    · exact absurd h hch
    · exact ⟨hs, hnone, hset⟩
  · intro hch
    rw [update_rt_eq] at hch
    rw [update_completed_eq, update_rt_eq]
    rcases asf_completed t d now with ⟨_, h⟩ | ⟨_, hnone, hset, hrt⟩
    · exact absurd h hch
    · refine ⟨hnone, hset, ?_⟩
      rcases hrt with ⟨_, h⟩ | ⟨i, hi, h⟩
      · exact absurd h hch
      · exact ⟨i, hi, h⟩

/-- Witness for `c10_timestamps_write_once`: a transaction already
completed at time 6 keeps its `completed_at` through a later `Pending`
update. -/
theorem c10_timestamps_write_once_witness :
    (update_transaction_status
        { baseTier1 with processed_at := some 5, completed_at := some 6 }
        proposePending 30).completed_at = some 6 :=
  ((c10_timestamps_write_once
      { baseTier1 with processed_at := some 5, completed_at := some 6 }
      proposePending 30).2.1 (by decide)).1

end WebwakaFintech.Tier1

namespace WebwakaFintech.African

open WebwakaFintech

/-- The `AfricanPaymentGateway` model
(`src/webwaka_african_payment_integration/src/models/african_payment_framework.py`).
Only the columns read by the embedded endpoints are kept: `gateway_id`
(lookup key), `country_code` (default for a created transaction's
`country_code`) and `status`; the remaining columns are static catalog
configuration never read by the transaction or analytics endpoints. -/
structure AfricanPaymentGateway where
  gateway_id : String
  country_code : String
  status : String
deriving DecidableEq, Repr

/-- The `PaymentGatewayIntegration` model.  Only the columns read by the
embedded endpoints are kept: `integration_id` (lookup key in
`create_transaction`) and `gateway_id` (copied onto the created
transaction and used to resolve `integration.gateway`). -/
structure PaymentGatewayIntegration where
  integration_id : String
  gateway_id : String
deriving DecidableEq, Repr

/-- The `PaymentTransaction` model
(`src/webwaka_african_payment_integration/src/models/african_payment_framework.py`,
lines 245–348).  Every column is embedded; `id` is the autoincrement
primary key. -/
structure PaymentTransaction where
  id : Nat
  transaction_id : String
  gateway_id : String
  integration_id : String
  external_transaction_id : Option String
  reference : String
  description : Option String
  amount : ℚ
  currency : String
  payment_method : String
  payment_channel : Option String
  customer_id : Option String
  customer_email : Option String
  customer_phone : Option String
  customer_name : Option String
  status : String
  gateway_status : Option String
  failure_reason : Option String
  initiated_at : Option Int
  processed_at : Option Int
  completed_at : Option Int
  response_time : Option Int
  gateway_response : Option String
  callback_data : Option String
  gateway_fee : ℚ
  platform_fee : ℚ
  total_fees : ℚ
  net_amount : Option ℚ
  country_code : String
  mobile_network : Option String
  bank_code : Option String
  transaction_metadata : Option String
  ip_address : Option String
  user_agent : Option String
  created_at : Int
  updated_at : Int
deriving DecidableEq, Repr

/-- The dictionary returned by `PaymentTransaction.to_dict` (model file
lines 315–348).  Numeric money fields record the representation the code
produces (`float(...)` conversions); timestamp fields are kept as the
underlying instants (the `isoformat()` string rendering is not modelled,
no claim concerns it). -/
structure PaymentTransactionDict where
  id : Nat
  transaction_id : String
  gateway_id : String
  integration_id : String
  external_transaction_id : Option String
  reference : String
  description : Option String
  amount : JsonNumber
  currency : String
  payment_method : String
  payment_channel : Option String
  status : String
  gateway_status : Option String
  failure_reason : Option String
  customer_id : Option String
  customer_email : Option String
  customer_phone : Option String
  customer_name : Option String
  country_code : String
  mobile_network : Option String
  bank_code : Option String
  gateway_fee : JsonNumber
  platform_fee : JsonNumber
  total_fees : JsonNumber
  net_amount : JsonNumber
  response_time : Option Int
  initiated_at : Option Int
  processed_at : Option Int
  completed_at : Option Int
  created_at : Option Int
deriving DecidableEq, Repr

/-- `float(x) if x else 0.0` on a non-nullable `Numeric` column: a Python
float either way (Decimal `0` is falsy, giving the literal `0.0`). -/
def floatOrZero (x : ℚ) : JsonNumber :=
  if x = 0 then JsonNumber.float 0 else JsonNumber.float x

/-- `float(x) if x else 0.0` on a nullable `Numeric` column. -/
def floatOrZeroOpt (x : Option ℚ) : JsonNumber :=
  match x with
  | none => JsonNumber.float 0
  | some v => floatOrZero v

/-- `PaymentTransaction.to_dict` (model file lines 315–348): every money
column goes through `float(...)`. -/
def PaymentTransaction.to_dict (t : PaymentTransaction) :
    PaymentTransactionDict :=
  { id := t.id, transaction_id := t.transaction_id,
    gateway_id := t.gateway_id, integration_id := t.integration_id,
    external_transaction_id := t.external_transaction_id,
    reference := t.reference, description := t.description,
    amount := floatOrZero t.amount, currency := t.currency,
    payment_method := t.payment_method,
    payment_channel := t.payment_channel, status := t.status,
    gateway_status := t.gateway_status,
    failure_reason := t.failure_reason, customer_id := t.customer_id,
    customer_email := t.customer_email,
    customer_phone := t.customer_phone, customer_name := t.customer_name,
    country_code := t.country_code, mobile_network := t.mobile_network,
    bank_code := t.bank_code, gateway_fee := floatOrZero t.gateway_fee,
    platform_fee := floatOrZero t.platform_fee,
    total_fees := floatOrZero t.total_fees,
    net_amount := floatOrZeroOpt t.net_amount,
    response_time := t.response_time, initiated_at := t.initiated_at,
    processed_at := t.processed_at, completed_at := t.completed_at,
    created_at := some t.created_at }

/-- The JSON body accepted by `POST /transactions`
(`create_transaction` in `src/src/routes/african_payment_framework.py`
lines 519–591) once the presence check of the five required keys
(`integration_id`, `amount`, `currency`, `payment_method`, `reference`)
has passed — the check tests presence only, never the values.
`ip_address` and `user_agent` come from the request context;
`metadata_json` is the `json.dumps` of the metadata object. -/
structure CreateTransactionData where
  integration_id : String
  amount : ℚ
  currency : String
  payment_method : String
  reference : String
  description : Option String
  payment_channel : Option String
  customer_id : Option String
  customer_email : Option String
  customer_phone : Option String
  customer_name : Option String
  country_code : Option String
  mobile_network : Option String
  bank_code : Option String
  metadata_json : String
  ip_address : Option String
  user_agent : Option String
deriving DecidableEq, Repr

/-- Outcome of `create_transaction`: 404 when the integration id is
unknown; 500 (exception caught, session rolled back) when the
integration's gateway row is missing, since
`data.get('country_code', integration.gateway.country_code)` evaluates
the default eagerly; 201 with the created row otherwise. -/
inductive CreateResult where
  | missingIntegration
  | serverError
  | created (t : PaymentTransaction)
deriving DecidableEq, Repr

/-- The transaction id returned to the caller, when one was created. -/
def CreateResult.txnId : CreateResult → Option String
  | .created t => some t.transaction_id
  | _ => none

end WebwakaFintech.African

namespace WebwakaFintech

/-- A tier-1 platform integration row (the `MPesaIntegration`,
`MTNMoMoIntegration`, `PaystackIntegration`, `FlutterwaveIntegration` and
`HubtelIntegration` models).  Their endpoints only read and write their
own configuration columns — never a transaction table — so the embedding
keeps the identity columns and folds the platform-specific configuration
into one opaque `config` payload. -/
structure Tier1Integration where
  platform : String
  integration_id : String
  config : String
deriving DecidableEq, Repr

/-- The persistent store shared by the two embedded blueprints: one table
per model class touched by their endpoints. -/
structure Db where
  gateways : List African.AfricanPaymentGateway
  integrations : List African.PaymentGatewayIntegration
  payment_transactions : List African.PaymentTransaction
  tier1_integrations : List Tier1Integration
  tier1_transactions : List Tier1.Tier1Transaction
deriving DecidableEq, Repr

end WebwakaFintech

namespace WebwakaFintech.African

/-- `create_transaction` (`src/src/routes/african_payment_framework.py`
lines 519–591): look the integration up by `integration_id` (404 on
miss), build the transaction with
`transaction_id = f"txn_\x7bintegration.gateway_id\x7d_\x7buuid4().hex[:12]\x7d"`,
the uppercased currency, `country_code` defaulted from the integration's
gateway, and `status='Pending'`; add and commit.  No lookup by
`reference` is ever made. -/
def newPaymentTransaction (db : Db) (data : CreateTransactionData)
    (uuidHex : String) (now : Int)
    (integration : PaymentGatewayIntegration)
    (gateway : AfricanPaymentGateway) : PaymentTransaction :=
  { id := db.payment_transactions.length + 1,
    transaction_id := "txn_" ++ integration.gateway_id ++ "_" ++ uuidHex,
    gateway_id := integration.gateway_id,
    integration_id := data.integration_id,
    external_transaction_id := none, reference := data.reference,
    description := data.description, amount := data.amount,
    currency := data.currency.toUpper,
    payment_method := data.payment_method,
    payment_channel := data.payment_channel,
    customer_id := data.customer_id,
    customer_email := data.customer_email,
    customer_phone := data.customer_phone,
    customer_name := data.customer_name, status := "Pending",
    gateway_status := none, failure_reason := none,
    initiated_at := some now, processed_at := none,
    completed_at := none, response_time := none,
    gateway_response := none, callback_data := none,
    gateway_fee := 0, platform_fee := 0, total_fees := 0,
    net_amount := none,
    country_code := data.country_code.getD gateway.country_code,
    mobile_network := data.mobile_network, bank_code := data.bank_code,
    transaction_metadata := some data.metadata_json,
    ip_address := data.ip_address, user_agent := data.user_agent,
    created_at := now, updated_at := now }

/-- The body of `create_transaction`: integration lookup (404 on miss),
eager `integration.gateway` access (exception and rollback when the
relationship is broken), then `db.session.add` + `commit` of the built
row — an unconditional append, whatever the reference. -/
def create_transaction (db : Db) (data : CreateTransactionData)
    (uuidHex : String) (now : Int) : Db × CreateResult :=
  match db.integrations.find?
      (fun i => i.integration_id == data.integration_id) with
  | none => (db, .missingIntegration)
  | some integration =>
    match db.gateways.find?
        (fun g => g.gateway_id == integration.gateway_id) with
    | none => (db, .serverError)
    | some gateway =>
      let t := newPaymentTransaction db data uuidHex now integration gateway
      ({ db with
          payment_transactions := db.payment_transactions ++ [t] },
        .created t)

open WebwakaFintech

/-- The base-query filter of `get_analytics_overview`
(`src/src/routes/african_payment_framework.py` lines 610–619):
`created_at >= start_date`, plus the optional uppercased `country_code`
and `gateway_id` filters. -/
def inWindow (start : Int) (cc gid : Option String)
    (t : PaymentTransaction) : Bool :=
  start ≤ t.created_at &&
    (match cc with
     | some c => t.country_code == c.toUpper
     | none => true) &&
    (match gid with
     | some g => t.gateway_id == g
     | none => true)

/-- The `transactions` block of the `get_analytics_overview` response
(lines 621–625 and 663–668): `total` counts every transaction matching
the base query — whatever its status — and
`success_rate = successful / total * 100` over that total. -/
structure TransactionsReport where
  total : Nat
  successful : Nat
  failed : Nat
  pending : Nat
  success_rate : ℚ
deriving DecidableEq, Repr

/-- The transaction statistics of `get_analytics_overview`. -/
def analytics_transactions (txns : List PaymentTransaction) (start : Int)
    (cc gid : Option String) : TransactionsReport :=
  let window := txns.filter (inWindow start cc gid)
  let total := window.length
  let successful := (window.filter (fun t => t.status == "Success")).length
  let failed := (window.filter (fun t => t.status == "Failed")).length
  let pending := (window.filter (fun t => t.status == "Pending")).length
  { total := total, successful := successful, failed := failed,
    pending := pending,
    success_rate :=
      if 0 < total then (successful : ℚ) / (total : ℚ) * 100 else 0 }

/-- The `volume.total` field of `get_analytics_overview` (lines 627–631
and 671): the sum of the amounts of the `Success` transactions of the
window, then converted with `float(...)`. -/
def analytics_volume_total (txns : List PaymentTransaction) (start : Int)
    (cc gid : Option String) : JsonNumber :=
  JsonNumber.float
    (((txns.filter (inWindow start cc gid)).filter
        (fun t => t.status == "Success")).map (fun t => t.amount)).sum

/-- The parts of the `get_analytics_overview` response the claims
concern.  The `payment_methods`, `countries` and `gateways` breakdowns
and `volume.average_transaction` are pure read-side aggregations no claim
mentions; they are not embedded. -/
structure AnalyticsOverview where
  transactions : TransactionsReport
  volume_total : JsonNumber
deriving DecidableEq, Repr

/-- `GET /analytics/overview` (lines 597–695): computes
`start_date = utcnow() - timedelta(days=days)` and aggregates; it issues
only queries, so the handler returns the store unchanged. -/
def get_analytics_overview (db : Db) (days : Int) (cc gid : Option String)
    (now : Int) : AnalyticsOverview × Db :=
  let start := now - days * 86400
  ({ transactions :=
      analytics_transactions db.payment_transactions start cc gid,
     volume_total :=
      analytics_volume_total db.payment_transactions start cc gid }, db)

/-- Modelled from the spec: the success rate as §9 of the spec defines it
("the design here deliberately excludes non-terminal transactions from
success-rate denominators") — successful transactions over the terminal
(`Success`/`Failed`/`Cancelled`) transactions of the same window, for
comparison with `analytics_transactions`. -/
def success_rate_excluding_non_terminal (txns : List PaymentTransaction)
    (start : Int) (cc gid : Option String) : ℚ :=
  let window := txns.filter (inWindow start cc gid)
  let terminal := window.filter
    (fun t => t.status == "Success" || t.status == "Failed" ||
      t.status == "Cancelled")
  let successful := (window.filter (fun t => t.status == "Success")).length
  if 0 < terminal.length then
    (successful : ℚ) / (terminal.length : ℚ) * 100
  else 0

end WebwakaFintech.African

namespace WebwakaFintech.Tier1

open WebwakaFintech

/-- The JSON body accepted by the tier-1 `POST /transactions`
(`create_tier1_transaction` in `src/src/routes/tier1_critical_platforms.py`
lines 533–579) once the presence check of the six required keys
(`platform`, `platform_integration_id`, `amount`, `currency`,
`payment_method`, `country_code`) has passed; the check tests presence
only.  `request_data_json` is the `json.dumps` of
`data.get('platform_request_data', ...)`. -/
structure Tier1CreateData where
  platform : String
  platform_integration_id : String
  amount : ℚ
  currency : String
  payment_method : String
  country_code : String
  external_transaction_id : Option String
  reference : Option String
  description : Option String
  payment_channel : Option String
  customer_id : Option String
  customer_email : Option String
  customer_phone : Option String
  customer_name : Option String
  mobile_network : Option String
  bank_code : Option String
  request_data_json : String
  ip_address : Option String
  user_agent : Option String
deriving DecidableEq, Repr

/-- `create_tier1_transaction` (lines 533–579): builds the row with
`transaction_id = f"tier1_\x7buuid4().hex[:16]\x7d"`, a defaulted
`reference` of `f"ref_\x7buuid4().hex[:8]\x7d"`, and no `status`
argument, so the column default `'Pending'` applies; `initiated_at`,
`created_at` and `updated_at` take their `utcnow` column defaults. -/
def create_tier1_transaction (txns : List Tier1Transaction)
    (data : Tier1CreateData) (u16 u8 : String) (now : Int) :
    List Tier1Transaction × Tier1Transaction :=
  let t : Tier1Transaction :=
    { id := txns.length + 1, transaction_id := "tier1_" ++ u16,
      platform := data.platform,
      platform_integration_id := data.platform_integration_id,
      external_transaction_id := data.external_transaction_id,
      reference := data.reference.getD ("ref_" ++ u8),
      description := data.description, amount := data.amount,
      currency := data.currency, payment_method := data.payment_method,
      payment_channel := data.payment_channel,
      customer_id := data.customer_id,
      customer_email := data.customer_email,
      customer_phone := data.customer_phone,
      customer_name := data.customer_name,
      platform_request_data := some data.request_data_json,
      platform_response_data := none, platform_callback_data := none,
      status := "Pending", platform_status := none,
      failure_reason := none, initiated_at := some now,
      processed_at := none, completed_at := none, response_time := none,
      platform_fee := 0, gateway_fee := 0, total_fees := 0,
      net_amount := none, country_code := data.country_code,
      mobile_network := data.mobile_network, bank_code := data.bank_code,
      ip_address := data.ip_address, user_agent := data.user_agent,
      created_at := now, updated_at := now }
  (txns ++ [t], t)

/-- The `overall_metrics` block of the tier-1 `GET /analytics/overview`
(`src/src/routes/tier1_critical_platforms.py` lines 683–698):
`failed_transactions` is `total - successful` (not a `Failed` count), the
volume sums `float(t.amount)` over the rows with truthy (non-zero)
amounts, and `success_rate = successful / total * 100` with `total`
counting every transaction of the window, whatever its status. -/
structure Tier1OverallMetrics where
  total_transactions : Nat
  successful_transactions : Nat
  failed_transactions : Nat
  success_rate : ℚ
  total_volume : JsonNumber
deriving DecidableEq, Repr

/-- The `overall_metrics` computation of the tier-1 analytics overview. -/
def tier1_overall_metrics (txns : List Tier1Transaction) (start : Int) :
    Tier1OverallMetrics :=
  let window := txns.filter (fun t => start ≤ t.created_at)
  let total := window.length
  let successful := (window.filter (fun t => t.status == "Success")).length
  { total_transactions := total, successful_transactions := successful,
    failed_transactions := total - successful,
    success_rate :=
      if 0 < total then (successful : ℚ) / (total : ℚ) * 100 else 0,
    total_volume :=
      JsonNumber.float
        ((window.filter (fun t => !(t.amount == 0))).map
          (fun t => t.amount)).sum }

/-- The tier-1 `GET /analytics/overview` route (lines 652–705) issues only
queries; the embedding returns the `overall_metrics` block (the
per-platform blocks repeat the same formulas filtered by platform) and
the store unchanged. -/
def tier1_get_analytics_overview (db : Db) (days : Int) (now : Int) :
    Tier1OverallMetrics × Db :=
  (tier1_overall_metrics db.tier1_transactions (now - days * 86400), db)

end WebwakaFintech.Tier1

namespace WebwakaFintech.African

/-- The status of the created transaction returned to the caller. -/
def CreateResult.txnStatus : CreateResult → Option String
  | .created t => some t.status
  | _ => none

/-- The amount stored on the created transaction. -/
def CreateResult.txnAmount : CreateResult → Option ℚ
  | .created t => some t.amount
  | _ => none

/-- When the integration and its gateway are found, `create_transaction`
appends exactly the built row and returns it. -/
theorem create_transaction_found (db : Db) (data : CreateTransactionData)
    (u : String) (now : Int) (integration : PaymentGatewayIntegration)
    (gateway : AfricanPaymentGateway)
    (hi : db.integrations.find?
      (fun i => i.integration_id == data.integration_id) =
        some integration)
    (hg : db.gateways.find?
      (fun g => g.gateway_id == integration.gateway_id) = some gateway) :
    (create_transaction db data u now).1.payment_transactions =
      db.payment_transactions ++
        [newPaymentTransaction db data u now integration gateway] ∧
    (create_transaction db data u now).2 =
      CreateResult.created
        (newPaymentTransaction db data u now integration gateway) := by
  unfold create_transaction
  rw [hi]
  dsimp only
  rw [hg]
  exact ⟨rfl, rfl⟩

/-- A concrete gateway row. -/
def gwM1 : AfricanPaymentGateway :=
  { gateway_id := "m1", country_code := "KEN", status := "Active" }

/-- A concrete integration row on gateway `m1`. -/
def intM1 : PaymentGatewayIntegration :=
  { integration_id := "int_1", gateway_id := "m1" }

/-- A store holding the gateway and integration and no transactions. -/
def db0 : Db :=
  { gateways := [gwM1], integrations := [intM1],
    payment_transactions := [], tier1_integrations := [],
    tier1_transactions := [] }

/-- A concrete well-formed creation request with reference `abc`. -/
def reqAbc : CreateTransactionData :=
  { integration_id := "int_1", amount := 500, currency := "KES",
    payment_method := "Mobile Money", reference := "abc",
    description := none, payment_channel := none, customer_id := none,
    customer_email := none, customer_phone := none,
    customer_name := none, country_code := none, mobile_network := none,
    bank_code := none, metadata_json := "\x7b\x7d", ip_address := none,
    user_agent := none }

/-- The same logical request with a negative amount. -/
def reqNeg : CreateTransactionData := { reqAbc with amount := -5 }

/-- C1 counterexample: submitting the identical creation request twice
(same integration, same reference `abc`) yields two transaction rows for
the pair `(int_1, abc)`, and the two callers receive two different
`transaction_id`s — not the same existing transaction. -/
theorem c1_duplicate_reference_cex :
    ((create_transaction (create_transaction db0 reqAbc "aaaaaaaaaaaa"
          0).1 reqAbc "bbbbbbbbbbbb" 1).1.payment_transactions.filter
        (fun t => t.integration_id == "int_1" && t.reference ==
          "abc")).length = 2 ∧
    (create_transaction db0 reqAbc "aaaaaaaaaaaa" 0).2.txnId =
      some "txn_m1_aaaaaaaaaaaa" ∧
    (create_transaction (create_transaction db0 reqAbc "aaaaaaaaaaaa"
        0).1 reqAbc "bbbbbbbbbbbb" 1).2.txnId =
      some "txn_m1_bbbbbbbbbbbb" ∧
    some "txn_m1_aaaaaaaaaaaa" ≠ some "txn_m1_bbbbbbbbbbbb" := by
  refine ⟨?_, ?_, ?_, ?_⟩ <;> decide

/-- C1 (amended): `create_transaction` never looks the reference up —
whenever the integration and gateway resolve, it appends a fresh row
carrying the request's reference and a `transaction_id` derived from the
fresh uuid, so N identical calls stack N rows. -/
theorem c1_creation_always_appends (db : Db)
    (data : CreateTransactionData) (u : String) (now : Int)
    (integration : PaymentGatewayIntegration)
    (gateway : AfricanPaymentGateway)
    (hi : db.integrations.find?
      (fun i => i.integration_id == data.integration_id) =
        some integration)
    (hg : db.gateways.find?
      (fun g => g.gateway_id == integration.gateway_id) = some gateway) :
    (create_transaction db data u now).1.payment_transactions =
      db.payment_transactions ++
        [newPaymentTransaction db data u now integration gateway] ∧
    (newPaymentTransaction db data u now integration
        gateway).reference = data.reference ∧
    (newPaymentTransaction db data u now integration
        gateway).integration_id = data.integration_id ∧
    (newPaymentTransaction db data u now integration
        gateway).transaction_id =
      "txn_" ++ integration.gateway_id ++ "_" ++ u :=
  ⟨(create_transaction_found db data u now integration gateway hi hg).1,
    rfl, rfl, rfl⟩

/-- Witness for `c1_creation_always_appends` at a concrete input. -/
theorem c1_creation_always_appends_witness :
    (create_transaction db0 reqAbc
        "aaaaaaaaaaaa" 0).1.payment_transactions =
      db0.payment_transactions ++
        [newPaymentTransaction db0 reqAbc "aaaaaaaaaaaa" 0 intM1 gwM1] :=
  (c1_creation_always_appends db0 reqAbc "aaaaaaaaaaaa" 0 intM1 gwM1
    (by decide) (by decide)).1

/-- C4 counterexample: both creation endpoints store the new transaction
with status `Pending`, not `Created` — the `Created` state does not
exist in the code. -/
theorem c4_not_created_state_cex :
    (create_transaction db0 reqAbc "aaaaaaaaaaaa" 0).2.txnStatus =
      some "Pending" ∧
    some "Pending" ≠ some "Created" := by
  refine ⟨?_, ?_⟩ <;> decide

/-- C4 (amended): every transaction either creation endpoint produces
starts in the `Pending` state: `create_transaction` passes
`status='Pending'` explicitly, and the tier-1 creation leaves the column
default `'Pending'`. -/
theorem c4_created_in_pending (db : Db) (data : CreateTransactionData)
    (u : String) (now : Int) (integration : PaymentGatewayIntegration)
    (gateway : AfricanPaymentGateway)
    (hi : db.integrations.find?
      (fun i => i.integration_id == data.integration_id) =
        some integration)
    (hg : db.gateways.find?
      (fun g => g.gateway_id == integration.gateway_id) = some gateway) :
    (create_transaction db data u now).2.txnStatus = some "Pending" ∧
    ∀ (txns : List Tier1.Tier1Transaction)
      (tdata : Tier1.Tier1CreateData) (u16 u8 : String) (n : Int),
      (Tier1.create_tier1_transaction txns tdata u16 u8 n).2.status =
        "Pending" := by
  refine ⟨?_, fun txns tdata u16 u8 n => rfl⟩
  rw [(create_transaction_found db data u now integration gateway
    hi hg).2]
  rfl

/-- Witness for `c4_created_in_pending` at a concrete input. -/
theorem c4_created_in_pending_witness :
    (create_transaction db0 reqAbc "aaaaaaaaaaaa" 0).2.txnStatus =
      some "Pending" :=
  (c4_created_in_pending db0 reqAbc "aaaaaaaaaaaa" 0 intM1 gwM1
    (by decide) (by decide)).1

/-- C6 counterexample: a creation request with amount `-5` passes the
presence-only validation and produces a stored transaction row whose
amount is `-5 < 0`. -/
theorem c6_negative_amount_stored_cex :
    (create_transaction db0 reqNeg
        "cccccccccccc" 0).1.payment_transactions.length = 1 ∧
    (create_transaction db0 reqNeg "cccccccccccc" 0).2.txnAmount =
      some (-5) ∧
    (-5 : ℚ) < 0 := by
  refine ⟨?_, ?_, ?_⟩ <;> decide

/-- C6 (amended): `create_transaction` validates only the presence of the
`amount` key, never its value: whenever the integration and gateway
resolve, a row is appended storing exactly the requested amount — zero
and negative amounts included. -/
theorem c6_amount_not_validated (db : Db) (data : CreateTransactionData)
    (u : String) (now : Int) (integration : PaymentGatewayIntegration)
    (gateway : AfricanPaymentGateway)
    (hi : db.integrations.find?
      (fun i => i.integration_id == data.integration_id) =
        some integration)
    (hg : db.gateways.find?
      (fun g => g.gateway_id == integration.gateway_id) = some gateway) :
    (create_transaction db data u now).2.txnAmount = some data.amount ∧
    (create_transaction db data u now).1.payment_transactions.length =
      db.payment_transactions.length + 1 := by
  obtain ⟨h1, h2⟩ :=
    create_transaction_found db data u now integration gateway hi hg
  constructor
  · rw [h2]; rfl
  · rw [h1, List.length_append]
    rfl

/-- Witness for `c6_amount_not_validated` with the negative amount. -/
theorem c6_amount_not_validated_witness :
    (create_transaction db0 reqNeg "cccccccccccc" 0).2.txnAmount =
      some (-5) :=
  (c6_amount_not_validated db0 reqNeg "cccccccccccc" 0 intM1 gwM1
    (by decide) (by decide)).1

end WebwakaFintech.African

namespace WebwakaFintech.African

/-- A concrete successful transaction, `created_at` 0. -/
def txnSuccessEx : PaymentTransaction :=
  { id := 1, transaction_id := "txn_m1_aaaaaaaaaaaa", gateway_id := "m1",
    integration_id := "int_1", external_transaction_id := none,
    reference := "abc", description := none, amount := 500,
    currency := "KES", payment_method := "Mobile Money",
    payment_channel := none, customer_id := none,
    customer_email := none, customer_phone := none,
    customer_name := none, status := "Success", gateway_status := none,
    failure_reason := none, initiated_at := some 0,
    processed_at := none, completed_at := some 5, response_time := none,
    gateway_response := none, callback_data := none, gateway_fee := 0,
    platform_fee := 0, total_fees := 0, net_amount := none,
    country_code := "KEN", mobile_network := none, bank_code := none,
    transaction_metadata := none, ip_address := none,
    user_agent := none, created_at := 0, updated_at := 5 }

/-- A concrete transaction still pending, `created_at` 0. -/
def txnPendingEx : PaymentTransaction :=
  { txnSuccessEx with
    id := 2, transaction_id := "txn_m1_bbbbbbbbbbbb",
    status := "Pending", completed_at := none }

/- Zeta-reduction lemmas for the report fields. -/

theorem analytics_successful_eq (txns : List PaymentTransaction)
    (start : Int) (cc gid : Option String) :
    (analytics_transactions txns start cc gid).successful =
      ((txns.filter (inWindow start cc gid)).filter
        (fun t => t.status == "Success")).length := rfl

theorem analytics_rate_eq (txns : List PaymentTransaction) (start : Int)
    (cc gid : Option String) :
    (analytics_transactions txns start cc gid).success_rate =
      (if 0 < (txns.filter (inWindow start cc gid)).length then
        ((((txns.filter (inWindow start cc gid)).filter
            (fun t => t.status == "Success")).length : ℚ) /
          ((txns.filter (inWindow start cc gid)).length : ℚ)) * 100
      else 0) := rfl

theorem success_rate_spec_eq (txns : List PaymentTransaction)
    (start : Int) (cc gid : Option String) :
    success_rate_excluding_non_terminal txns start cc gid =
      (if 0 < ((txns.filter (inWindow start cc gid)).filter
          (fun t => t.status == "Success" || t.status == "Failed" ||
            t.status == "Cancelled")).length then
        ((((txns.filter (inWindow start cc gid)).filter
            (fun t => t.status == "Success")).length : ℚ) /
          (((txns.filter (inWindow start cc gid)).filter
            (fun t => t.status == "Success" || t.status == "Failed" ||
              t.status == "Cancelled")).length : ℚ)) * 100
      else 0) := rfl

end WebwakaFintech.African

namespace WebwakaFintech.Tier1

theorem tier1_successful_eq (txns : List Tier1Transaction)
    (start : Int) :
    (tier1_overall_metrics txns start).successful_transactions =
      ((txns.filter (fun t => start ≤ t.created_at)).filter
        (fun t => t.status == "Success")).length := rfl

theorem tier1_rate_eq (txns : List Tier1Transaction) (start : Int) :
    (tier1_overall_metrics txns start).success_rate =
      (if 0 < (txns.filter (fun t => start ≤ t.created_at)).length then
        ((((txns.filter (fun t => start ≤ t.created_at)).filter
            (fun t => t.status == "Success")).length : ℚ) /
          ((txns.filter (fun t => start ≤ t.created_at)).length : ℚ)) *
          100
      else 0) := rfl

end WebwakaFintech.Tier1

namespace WebwakaFintech

/-- Enlarging a success-rate denominator by one (success count fixed)
strictly lowers the rate. -/
theorem rate_denominator_grows (s n : Nat) (hs : 0 < s) (hn : 0 < n) :
    (s : ℚ) / ((n : ℚ) + 1) * 100 < (s : ℚ) / (n : ℚ) * 100 := by
  have h1 : (s : ℚ) / ((n : ℚ) + 1) < (s : ℚ) / (n : ℚ) :=
    div_lt_div_of_pos_left (by exact_mod_cast hs) (by exact_mod_cast hn)
      (by linarith)
  have h100 : (0 : ℚ) < 100 := by norm_num
  exact mul_lt_mul_of_pos_right h1 h100

/-- C5 counterexample: a window holding one `Success` and one `Pending`
transaction.  The code's success rate is 50 — the pending transaction is
in the denominator — while the spec-defined rate excluding non-terminal
transactions is 100. -/
theorem c5_pending_in_denominator_cex :
    (African.analytics_transactions
        [African.txnSuccessEx, African.txnPendingEx] (-100) none
        none).success_rate = 50 ∧
    African.success_rate_excluding_non_terminal
        [African.txnSuccessEx, African.txnPendingEx] (-100) none none =
      100 ∧
    (50 : ℚ) ≠ 100 := by
  refine ⟨?_, ?_, by norm_num⟩
  · rw [African.analytics_rate_eq]
    rw [show ((([African.txnSuccessEx,
          African.txnPendingEx].filter
            (African.inWindow (-100) none none)).filter
          (fun t => t.status == "Success")).length : Nat) = 1 from by
        decide,
      show (([African.txnSuccessEx, African.txnPendingEx].filter
          (African.inWindow (-100) none none)).length : Nat) = 2 from by
        decide]
    norm_num
  · rw [African.success_rate_spec_eq]
    rw [show ((([African.txnSuccessEx,
          African.txnPendingEx].filter
            (African.inWindow (-100) none none)).filter
          (fun t => t.status == "Success")).length : Nat) = 1 from by
        decide,
      show ((([African.txnSuccessEx, African.txnPendingEx].filter
            (African.inWindow (-100) none none)).filter
          (fun t => t.status == "Success" || t.status == "Failed" ||
            t.status == "Cancelled")).length : Nat) = 1 from by decide]
    norm_num

/-- C5 (amended): in both analytics-overview endpoints the success-rate
denominator is the count of every transaction of the window, non-terminal
ones included — adding one `Pending` transaction to a window that has at
least one success strictly lowers the reported success rate. -/
theorem c5_pending_counts_against_rate :
    (∀ (txns : List African.PaymentTransaction)
       (p : African.PaymentTransaction) (start : Int)
       (cc gid : Option String),
       p.status = "Pending" → African.inWindow start cc gid p = true →
       0 < (African.analytics_transactions txns start cc
          gid).successful →
       (African.analytics_transactions (p :: txns) start cc
          gid).success_rate <
         (African.analytics_transactions txns start cc
            gid).success_rate) ∧
    (∀ (txns : List Tier1.Tier1Transaction)
       (q : Tier1.Tier1Transaction) (start : Int),
       q.status = "Pending" → start ≤ q.created_at →
       0 < (Tier1.tier1_overall_metrics txns
          start).successful_transactions →
       (Tier1.tier1_overall_metrics (q :: txns) start).success_rate <
         (Tier1.tier1_overall_metrics txns start).success_rate) := by
  constructor
  · intro txns p start cc gid hp hw hs
    rw [African.analytics_successful_eq] at hs
    rw [African.analytics_rate_eq, African.analytics_rate_eq]
    have hpfalse : (p.status == "Success") = false := by
      rw [hp]; decide
    have hwind : (p :: txns).filter (African.inWindow start cc gid) =
        p :: txns.filter (African.inWindow start cc gid) := by
      rw [List.filter_cons, if_pos hw]
    have hsucc : ((p :: txns).filter
          (African.inWindow start cc gid)).filter
          (fun t => t.status == "Success") =
        (txns.filter (African.inWindow start cc gid)).filter
          (fun t => t.status == "Success") := by
      rw [hwind, List.filter_cons]
      simp [hpfalse]
    rw [hsucc, hwind, List.length_cons]
    have hn : 0 < (txns.filter (African.inWindow start cc gid)).length :=
      lt_of_lt_of_le hs (List.length_filter_le _ _)
    rw [if_pos (Nat.succ_pos _), if_pos hn]
    push_cast
    exact rate_denominator_grows _ _ hs hn
  · intro txns q start hq hqt hs
    rw [Tier1.tier1_successful_eq] at hs
    rw [Tier1.tier1_rate_eq, Tier1.tier1_rate_eq]
    have hqfalse : (q.status == "Success") = false := by
      rw [hq]; decide
    have hqw : (decide (start ≤ q.created_at)) = true := by
      rw [decide_eq_true_eq]; exact hqt
    have hwind : (q :: txns).filter (fun t => start ≤ t.created_at) =
        q :: txns.filter (fun t => start ≤ t.created_at) := by
      rw [List.filter_cons]
      simp only [hqw, if_true]
    have hsucc : ((q :: txns).filter
          (fun t => start ≤ t.created_at)).filter
          (fun t => t.status == "Success") =
        (txns.filter (fun t => start ≤ t.created_at)).filter
          (fun t => t.status == "Success") := by
      rw [hwind, List.filter_cons]
      simp [hqfalse]
    rw [hsucc, hwind, List.length_cons]
    have hn : 0 <
        (txns.filter (fun t => start ≤ t.created_at)).length :=
      lt_of_lt_of_le hs (List.length_filter_le _ _)
    rw [if_pos (Nat.succ_pos _), if_pos hn]
    push_cast
    exact rate_denominator_grows _ _ hs hn

/-- Witness for `c5_pending_counts_against_rate` at a concrete input. -/
theorem c5_pending_counts_against_rate_witness :
    (African.analytics_transactions
        [African.txnPendingEx, African.txnSuccessEx] (-100) none
        none).success_rate <
      (African.analytics_transactions [African.txnSuccessEx] (-100)
        none none).success_rate :=
  c5_pending_counts_against_rate.1 [African.txnSuccessEx]
    African.txnPendingEx (-100) none none rfl (by decide) (by decide)

/-- C9 counterexample: `to_dict` serializes the `Numeric(15, 2)` amount
through `float(...)` — the serialized amount of a concrete transaction is
a floating-point number. -/
theorem c9_amount_serialized_as_float_cex :
    (African.PaymentTransaction.to_dict African.txnSuccessEx).amount =
      JsonNumber.float 500 ∧
    JsonNumber.isFloat (JsonNumber.float 500) = true := by
  refine ⟨?_, rfl⟩
  decide

/-- C9 (amended): amounts are stored in fixed-point `Numeric` columns,
but every read path converts them to floating point: `to_dict`
serialization (`float(self.amount) if self.amount else 0.0`) and the
volume aggregations of both analytics-overview endpoints. -/
theorem c9_money_serialized_as_float (t : African.PaymentTransaction) :
    JsonNumber.isFloat
      ((African.PaymentTransaction.to_dict t).amount) = true ∧
    (∀ (txns : List African.PaymentTransaction) (start : Int)
       (cc gid : Option String),
       JsonNumber.isFloat
         (African.analytics_volume_total txns start cc gid) = true) ∧
    (∀ (txns : List Tier1.Tier1Transaction) (start : Int),
       JsonNumber.isFloat
         ((Tier1.tier1_overall_metrics txns start).total_volume) =
           true) := by
  refine ⟨?_, fun _ _ _ _ => rfl, fun _ _ => rfl⟩
  show JsonNumber.isFloat (African.floatOrZero t.amount) = true
  unfold African.floatOrZero
  split <;> rfl

end WebwakaFintech

namespace WebwakaFintech.Tier1

/-- `applyStatusField` never touches `transaction_id`. -/
theorem asf_txnid (t : Tier1Transaction) (d : StatusUpdateData)
    (now : Int) :
    (applyStatusField t d now).transaction_id = t.transaction_id := by
  unfold applyStatusField
  cases d.status with
  | none => rfl
  | some s =>
    dsimp only
    by_cases h1 : s = "Processing" ∧ t.processed_at = none
    · rw [if_pos h1]
    · rw [if_neg h1]
      by_cases h2 : (s = "Success" ∨ s = "Failed" ∨ s = "Cancelled") ∧
          t.completed_at = none
      · rw [if_pos h2]; cases t.initiated_at <;> rfl
      · rw [if_neg h2]

/-- The status-update operation never changes `transaction_id`. -/
theorem update_preserves_txnid (t : Tier1Transaction)
    (d : StatusUpdateData) (now : Int) :
    (update_transaction_status t d now).transaction_id =
      t.transaction_id := asf_txnid t d now

/-- The status-update route keeps the table length. -/
theorem route_length (tid : String) (d : StatusUpdateData) (now : Int)
    (l : List Tier1Transaction) :
    (update_transaction_status_route tid d now l).length = l.length := by
  induction l with
  | nil => rfl
  | cons a as ih =>
    unfold update_transaction_status_route
    by_cases hc : a.transaction_id = tid
    · rw [if_pos hc, List.length_cons, List.length_cons]
    · rw [if_neg hc, List.length_cons, List.length_cons, ih]

/-- The status-update route keeps every `transaction_id` present. -/
theorem route_preserves_id (tid : String) (d : StatusUpdateData)
    (now : Int) (l : List Tier1Transaction) (x : String)
    (h : ∃ t ∈ l, t.transaction_id = x) :
    ∃ t ∈ update_transaction_status_route tid d now l,
      t.transaction_id = x := by
  induction l with
  | nil => obtain ⟨t, ht, _⟩ := h; cases ht
  | cons a as ih =>
    obtain ⟨t, ht, hx⟩ := h
    unfold update_transaction_status_route
    by_cases hc : a.transaction_id = tid
    · rw [if_pos hc]
      rcases List.mem_cons.mp ht with rfl | hmem
      · exact ⟨update_transaction_status t d now,
          List.mem_cons_self _ _, by rw [update_preserves_txnid]; exact hx⟩
      · exact ⟨t, List.mem_cons_of_mem _ hmem, hx⟩
    · rw [if_neg hc]
      rcases List.mem_cons.mp ht with rfl | hmem
      · exact ⟨t, List.mem_cons_self _ _, hx⟩
      · obtain ⟨u, h1, h2⟩ := ih ⟨t, hmem, hx⟩
        exact ⟨u, List.mem_cons_of_mem _ h1, h2⟩

end WebwakaFintech.Tier1

namespace WebwakaFintech.African

/-- `create_transaction` either leaves the transaction table unchanged
(404 / broken relationship) or appends exactly one row. -/
theorem create_transaction_txns_shape (db : Db)
    (data : CreateTransactionData) (u : String) (now : Int) :
    (create_transaction db data u now).1.payment_transactions =
        db.payment_transactions ∨
      ∃ t, (create_transaction db data u now).1.payment_transactions =
        db.payment_transactions ++ [t] := by
  unfold create_transaction
  cases db.integrations.find?
      (fun i => i.integration_id == data.integration_id) with
  | none => exact Or.inl rfl
  | some integration =>
    dsimp only
    cases db.gateways.find?
        (fun g => g.gateway_id == integration.gateway_id) with
    | none => exact Or.inl rfl
    | some gateway => exact Or.inr ⟨_, rfl⟩

/-- `create_transaction` never touches the tier-1 transaction table. -/
theorem create_transaction_tier1_unchanged (db : Db)
    (data : CreateTransactionData) (u : String) (now : Int) :
    (create_transaction db data u now).1.tier1_transactions =
      db.tier1_transactions := by
  unfold create_transaction
  cases db.integrations.find?
      (fun i => i.integration_id == data.integration_id) with
  | none => rfl
  | some integration =>
    dsimp only
    cases db.gateways.find?
        (fun g => g.gateway_id == integration.gateway_id) with
    | none => rfl
    | some gateway => rfl

end WebwakaFintech.African

namespace WebwakaFintech

/-- `PUT /<platform>/integrations/<integration_id>`: overwrite the
configuration of the first matching integration row. -/
def updateTier1IntegrationConfig (iid : String) (config : String) :
    List Tier1Integration → List Tier1Integration
  | [] => []
  | i :: is =>
    if i.integration_id == iid then { i with config := config } :: is
    else i :: updateTier1IntegrationConfig iid config is

/-- The operations exposed by the `african_payment_bp` and
`tier1_platforms_bp` blueprints
(`src/src/routes/african_payment_framework.py`,
`src/src/routes/tier1_critical_platforms.py`).  GET endpoints carry no
payload parameters here because they only read; POST/PUT endpoints carry
the request data the corresponding handler consumes.  Neither blueprint
registers a DELETE route. -/
inductive ApiOp where
  | health
  | getGateways
  | getGateway (gid : String)
  | createGateway (g : African.AfricanPaymentGateway)
  | getIntegrations
  | createIntegration (i : African.PaymentGatewayIntegration)
  | getTransactions
  | createTransaction (data : African.CreateTransactionData)
      (uuidHex : String) (now : Int)
  | analyticsOverview (days : Int) (cc gid : Option String) (now : Int)
  | getPaymentMethods
  | getCountries
  | getStatistics
  | tier1Health
  | tier1Statistics
  | tier1GetIntegrations (platform : String)
  | tier1CreateIntegration (i : Tier1Integration)
  | tier1GetIntegration (iid : String)
  | tier1UpdateIntegration (iid : String) (config : String)
  | tier1GetTransactions
  | tier1CreateTransaction (data : Tier1.Tier1CreateData)
      (u16 u8 : String) (now : Int)
  | tier1GetTransaction (tid : String)
  | tier1UpdateTransactionStatus (tid : String)
      (d : Tier1.StatusUpdateData) (now : Int)
  | tier1AnalyticsOverview (days : Int) (now : Int)
  | tier1SupportedPlatforms

/-- The effect of each endpoint on the store: GET endpoints and the two
analytics overviews only query (identity); the POST endpoints
`db.session.add` + `commit` one row to their own table; the PUT
endpoints mutate the first matching row of their own table. -/
def applyOp : ApiOp → Db → Db
  | .health, db => db
  | .getGateways, db => db
  | .getGateway _, db => db
  | .createGateway g, db => { db with gateways := db.gateways ++ [g] }
  | .getIntegrations, db => db
  | .createIntegration i, db =>
      { db with integrations := db.integrations ++ [i] }
  | .getTransactions, db => db
  | .createTransaction data u now, db =>
      (African.create_transaction db data u now).1
  | .analyticsOverview days cc gid now, db =>
      (African.get_analytics_overview db days cc gid now).2
  | .getPaymentMethods, db => db
  | .getCountries, db => db
  | .getStatistics, db => db
  | .tier1Health, db => db
  | .tier1Statistics, db => db
  | .tier1GetIntegrations _, db => db
  | .tier1CreateIntegration i, db =>
      { db with tier1_integrations := db.tier1_integrations ++ [i] }
  | .tier1GetIntegration _, db => db
  | .tier1UpdateIntegration iid config, db =>
      { db with
        tier1_integrations :=
          updateTier1IntegrationConfig iid config db.tier1_integrations }
  | .tier1GetTransactions, db => db
  | .tier1CreateTransaction data u16 u8 now, db =>
      { db with
        tier1_transactions :=
          (Tier1.create_tier1_transaction db.tier1_transactions data u16
            u8 now).1 }
  | .tier1GetTransaction _, db => db
  | .tier1UpdateTransactionStatus tid d now, db =>
      { db with
        tier1_transactions :=
          Tier1.update_transaction_status_route tid d now
            db.tier1_transactions }
  | .tier1AnalyticsOverview days now, db =>
      (Tier1.tier1_get_analytics_overview db days now).2
  | .tier1SupportedPlatforms, db => db

/-- C7: both analytics-overview handlers are pure read-side — they return
the store exactly as they found it; every transaction row (and every
other table) is unchanged. -/
theorem c7_analytics_read_only (db : Db) (days : Int)
    (cc gid : Option String) (now days2 now2 : Int) :
    (African.get_analytics_overview db days cc gid now).2 = db ∧
    (Tier1.tier1_get_analytics_overview db days2 now2).2 = db ∧
    applyOp (ApiOp.analyticsOverview days cc gid now) db = db ∧
    applyOp (ApiOp.tier1AnalyticsOverview days2 now2) db = db :=
  ⟨rfl, rfl, rfl, rfl⟩

/-- Each endpoint leaves the two transaction tables unchanged, appends
one row, or (status update) rewrites rows in place. -/
theorem applyOp_txns_shape (op : ApiOp) (db : Db) :
    ((applyOp op db).payment_transactions = db.payment_transactions ∨
      ∃ t, (applyOp op db).payment_transactions =
        db.payment_transactions ++ [t]) ∧
    ((applyOp op db).tier1_transactions = db.tier1_transactions ∨
      (∃ t, (applyOp op db).tier1_transactions =
        db.tier1_transactions ++ [t]) ∨
      ∃ tid d now, (applyOp op db).tier1_transactions =
        Tier1.update_transaction_status_route tid d now
          db.tier1_transactions) := by
  cases op
  case createTransaction data u now =>
    exact ⟨African.create_transaction_txns_shape db data u now,
      Or.inl (African.create_transaction_tier1_unchanged db data u now)⟩
  case tier1CreateTransaction data u16 u8 now =>
    exact ⟨Or.inl rfl, Or.inr (Or.inl ⟨_, rfl⟩)⟩
  case tier1UpdateTransactionStatus tid d now =>
    exact ⟨Or.inl rfl, Or.inr (Or.inr ⟨tid, d, now, rfl⟩)⟩
  all_goals exact ⟨Or.inl rfl, Or.inl rfl⟩

/-- C8: no endpoint of either blueprint deletes a transaction row — after
any operation, both transaction tables are at least as long as before and
every `transaction_id` present before is still present. -/
theorem c8_no_transaction_row_deleted (op : ApiOp) (db : Db) :
    db.payment_transactions.length ≤
        (applyOp op db).payment_transactions.length ∧
    db.tier1_transactions.length ≤
        (applyOp op db).tier1_transactions.length ∧
    (∀ x, (∃ t ∈ db.payment_transactions, t.transaction_id = x) →
      ∃ t ∈ (applyOp op db).payment_transactions,
        t.transaction_id = x) ∧
    (∀ x, (∃ t ∈ db.tier1_transactions, t.transaction_id = x) →
      ∃ t ∈ (applyOp op db).tier1_transactions,
        t.transaction_id = x) := by
  obtain ⟨hA, hT⟩ := applyOp_txns_shape op db
  refine ⟨?_, ?_, ?_, ?_⟩
  · rcases hA with h | ⟨t, h⟩
    · rw [h]
    · rw [h, List.length_append]
      exact Nat.le_add_right _ _
  · rcases hT with h | ⟨t, h⟩ | ⟨tid, d, now, h⟩
    · rw [h]
    · rw [h, List.length_append]
      exact Nat.le_add_right _ _
    · rw [h, Tier1.route_length]
  · rintro x ⟨t, ht, hx⟩
    rcases hA with h | ⟨u, h⟩ <;> rw [h]
    · exact ⟨t, ht, hx⟩
    · exact ⟨t, List.mem_append_left _ ht, hx⟩
  · rintro x ⟨t, ht, hx⟩
    rcases hT with h | ⟨u, h⟩ | ⟨tid, d, now, h⟩ <;> rw [h]
    · exact ⟨t, ht, hx⟩
    · exact ⟨t, List.mem_append_left _ ht, hx⟩
    · exact Tier1.route_preserves_id tid d now _ x ⟨t, ht, hx⟩

/-- A store holding one tier-1 transaction. -/
def dbWithTier1 : Db :=
  { African.db0 with tier1_transactions := [Tier1.baseTier1] }

/-- Witness for `c8_no_transaction_row_deleted`: the tier-1 transaction
survives a status update targeting it. -/
theorem c8_no_transaction_row_deleted_witness :
    ∃ t ∈ (applyOp
        (ApiOp.tier1UpdateTransactionStatus "tier1_0123456789abcdef"
          Tier1.proposePending 50) dbWithTier1).tier1_transactions,
      t.transaction_id = "tier1_0123456789abcdef" :=
  (c8_no_transaction_row_deleted
      (ApiOp.tier1UpdateTransactionStatus "tier1_0123456789abcdef"
        Tier1.proposePending 50) dbWithTier1).2.2.2
    "tier1_0123456789abcdef"
    ⟨Tier1.baseTier1, List.mem_cons_self _ _, rfl⟩

end WebwakaFintech
